import Mathlib

/-!
Verification of the ST7789 panel-transaction drivers of the
LAFVIN-ESP32-C6-1.47LCD repository.

Two implementations are embedded:
- the Arduino C++ class `ST7789Display`
  (src/Arduino/examples/LVGL_Image/Display_ST7789.{h,cpp}), and
- the ESP-IDF C module (src/ESP-IDF/ESP32-C6-LCD-1.47/main/LCD_Driver/ST7789.{h,c}).

Machine integers are modelled as `Nat` with explicit `% 2^w` truncation at
exactly the points where the C code truncates (parameter passing into a
narrower type, stores into a narrower field).  Bus activity is modelled as a
trace of events (`Ev`): each `writeCommand` / `writeData` /
`writeDataBytes` / GPIO / PWM / delay call appends one event.  The
chip-select / data-command framing inside `writeCommand` and `writeData` is
folded into the event kind (a `cmd` event is a byte sent with DC low, a
`data` event a byte sent with DC high).
-/

/-- One observable hardware action of the Arduino driver. -/
inductive Ev where
  /-- `writeCommand b`: one byte sent with the DC line low. -/
  | cmd (b : Nat)
  /-- `writeData b`: one byte sent with the DC line high. -/
  | data (b : Nat)
  /-- `writeDataBytes buf len`: a bulk burst of bytes sent with DC high. -/
  | dataBytes (bs : List Nat)
  /-- `delay ms`. -/
  | delayMs (ms : Nat)
  /-- `digitalWrite pin level`. -/
  | gpioWrite (pin : Nat) (level : Bool)
  /-- `ledcAttach pin freq resolution`. -/
  | pwmAttach (pin freqHz resBits : Nat)
  /-- `ledcWrite pin duty`. -/
  | pwmWrite (pin duty : Nat)
  /-- `SPI.begin(...)`. -/
  | spiBegin
  /-- `pinMode pin OUTPUT`. -/
  | pinModeOut (pin : Nat)
  deriving DecidableEq, Repr

/-- Configuration of the Arduino `ST7789Display` class (Display_ST7789.h:96-108).
Field widths in the source: pins and offsets are `uint8_t`, width/height and
`backlight_freq` are `uint16_t`, `spi_freq` is `uint32_t`. -/
structure ST7789Config where
  pin_cs : Nat
  pin_dc : Nat
  pin_rst : Nat
  pin_backlight : Nat
  width : Nat
  height : Nat
  offset_x : Nat
  offset_y : Nat
  horizontal : Bool
  spi_freq : Nat
  backlight_freq : Nat
  backlight_resolution : Nat
  deriving DecidableEq, Repr

/-- The numeric fields fit their C types (`uint16_t` dimensions, `uint8_t`
offsets), so no store-truncation occurs inside the driver. -/
def ST7789Config.FieldsInRange (cfg : ST7789Config) : Prop :=
  cfg.width < 65536 ∧ cfg.height < 65536 ∧
  cfg.offset_x < 256 ∧ cfg.offset_y < 256

instance (cfg : ST7789Config) : Decidable cfg.FieldsInRange := by
  unfold ST7789Config.FieldsInRange; infer_instance

/-- Spec §3 invariant on a valid `PanelConfig`: offset + dimension stays within
the controller's native 240×320 addressable range.  In horizontal mode the
logical X axis maps to native columns (240) and Y to native rows (320); in
vertical mode the axes swap. -/
def ST7789Config.NativeValid (cfg : ST7789Config) : Prop :=
  if cfg.horizontal then
    cfg.offset_x + cfg.width ≤ 240 ∧ cfg.offset_y + cfg.height ≤ 320
  else
    cfg.offset_y + cfg.height ≤ 240 ∧ cfg.offset_x + cfg.width ≤ 320

instance (cfg : ST7789Config) : Decidable cfg.NativeValid := by
  unfold ST7789Config.NativeValid; infer_instance

/-- Default configuration from the constants in Display_ST7789.h:128-151. -/
def arduinoDefaultConfig : ST7789Config :=
  { pin_cs := 14, pin_dc := 15, pin_rst := 21, pin_backlight := 22
    width := 172, height := 320, offset_x := 34, offset_y := 0
    horizontal := true
    spi_freq := 80000000, backlight_freq := 1000, backlight_resolution := 10 }

/-- `ST7789Display::setWindow` (Display_ST7789.cpp:258-289), addressing part:
the column-address (0x2A) and row-address (0x2B) commands with their four
parameter bytes each.  Parameters `x1..y2` are `uint16_t` (entry truncation
`% 65536`); each `writeData` argument is truncated to `uint8_t` (`% 256`).
Note the high parameter bytes are computed from the *un-offset* coordinate
(`x1 >> 8`), while the low bytes carry the offset sum truncated to 8 bits. -/
def setAddrTrace (cfg : ST7789Config) (x1 y1 x2 y2 : Nat) : List Ev :=
  let X1 := x1 % 65536
  let Y1 := y1 % 65536
  let X2 := x2 % 65536
  let Y2 := y2 % 65536
  if cfg.horizontal then
    [Ev.cmd 0x2A,
     Ev.data (X1 / 256 % 256), Ev.data ((X1 + cfg.offset_x) % 256),
     Ev.data (X2 / 256 % 256), Ev.data ((X2 + cfg.offset_x) % 256),
     Ev.cmd 0x2B,
     Ev.data (Y1 / 256 % 256), Ev.data ((Y1 + cfg.offset_y) % 256),
     Ev.data (Y2 / 256 % 256), Ev.data ((Y2 + cfg.offset_y) % 256)]
  else
    [Ev.cmd 0x2A,
     Ev.data (Y1 / 256 % 256), Ev.data ((Y1 + cfg.offset_y) % 256),
     Ev.data (Y2 / 256 % 256), Ev.data ((Y2 + cfg.offset_y) % 256),
     Ev.cmd 0x2B,
     Ev.data (X1 / 256 % 256), Ev.data ((X1 + cfg.offset_x) % 256),
     Ev.data (X2 / 256 % 256), Ev.data ((X2 + cfg.offset_x) % 256)]

/-- `ST7789Display::setWindow` (Display_ST7789.cpp:258-291): the addressing
commands followed by the memory-write command 0x2C. -/
def setWindowTrace (cfg : ST7789Config) (x1 y1 x2 y2 : Nat) : List Ev :=
  setAddrTrace cfg x1 y1 x2 y2 ++ [Ev.cmd 0x2C]

/-- Serialization of a row-major RGB565 pixel list into the byte stream the
burst write sends: the `(uint8_t*)buffer` reinterpretation on the
little-endian ESP32 puts each pixel's low byte first. -/
def pixelsToBytes : List Nat → List Nat
  | [] => []
  | p :: ps => p % 256 :: p / 256 % 256 :: pixelsToBytes ps

/-- `ST7789Display::drawPixelBuffer` (Display_ST7789.cpp:296-303).
`width`/`height` are `uint16_t` locals, `numBytes` a `uint32_t`.  The burst
sends `numBytes` bytes starting at the buffer pointer; reads past the end of
the supplied buffer (a contract violation in the source) are modelled by
`List.take` stopping at the buffer's end. -/
def drawPixelBufferTrace (cfg : ST7789Config) (x1 y1 x2 y2 : Nat)
    (buffer : List Nat) : List Ev :=
  let w := (x2 % 65536 - x1 % 65536 + 1) % 65536
  let h := (y2 % 65536 - y1 % 65536 + 1) % 65536
  let numBytes := (w * h * 2) % 4294967296
  setWindowTrace cfg x1 y1 x2 y2 ++
    [Ev.dataBytes (List.take numBytes (pixelsToBytes buffer))]

/-- `ST7789Display::clearScreen` (Display_ST7789.cpp:308-321): builds one
line buffer of `_width` copies of `color`, sets the window to the full
panel, then bursts the line `_height` times.  `_width - 1` is `int`
arithmetic passed into a `uint16_t` parameter, hence the `+ 65536 - 1`
formulation (which agrees with `width - 1` for `width ≥ 1`). -/
def clearScreenTrace (cfg : ST7789Config) (color : Nat) : List Ev :=
  let c := color % 65536
  let line := List.replicate cfg.width c
  setWindowTrace cfg 0 0 ((cfg.width + 65536 - 1) % 65536)
      ((cfg.height + 65536 - 1) % 65536) ++
    List.replicate cfg.height
      (Ev.dataBytes (List.take ((cfg.width * 2) % 4294967296)
        (pixelsToBytes line)))

/-- `ST7789Display::setBacklight` (Display_ST7789.cpp:327-335): the PWM duty
written.  The parameter is `uint8_t`; values above 100 are clamped; the duty
is `brightness * 10` in a `uint32_t`. -/
def arduinoBacklightDuty (brightness : Nat) : Nat :=
  let b := brightness % 256
  let b := if b > 100 then 100 else b
  (b * 10) % 4294967296

/-- `ST7789Display::setBacklight` as a trace: one `ledcWrite` of the duty. -/
def setBacklightTrace (cfg : ST7789Config) (brightness : Nat) : List Ev :=
  [Ev.pwmWrite cfg.pin_backlight (arduinoBacklightDuty brightness)]

/-- `ST7789Display::backlightInit` (Display_ST7789.cpp:223-228). -/
def backlightInitTrace (cfg : ST7789Config) : List Ev :=
  [Ev.pwmAttach cfg.pin_backlight cfg.backlight_freq cfg.backlight_resolution,
   Ev.pwmWrite cfg.pin_backlight 100]

/-- `ST7789Display::hardwareReset` (Display_ST7789.cpp:117-124). -/
def hardwareResetTrace (cfg : ST7789Config) : List Ev :=
  [Ev.gpioWrite cfg.pin_cs false, Ev.delayMs 50,
   Ev.gpioWrite cfg.pin_rst false, Ev.delayMs 50,
   Ev.gpioWrite cfg.pin_rst true, Ev.delayMs 50]

/-- `ST7789Display::initRegisters` (Display_ST7789.cpp:129-218): the fixed
register-initialization command sequence, with the orientation byte of the
memory-access-control command 0x36 chosen by `_horizontal`. -/
def initRegistersTrace (cfg : ST7789Config) : List Ev :=
  [Ev.cmd 0x11, Ev.delayMs 120,
   Ev.cmd 0x36, Ev.data (if cfg.horizontal then 0x00 else 0x70),
   Ev.cmd 0x3A, Ev.data 0x05,
   Ev.cmd 0xB0, Ev.data 0x00, Ev.data 0xE8,
   Ev.cmd 0xB2, Ev.data 0x0C, Ev.data 0x0C, Ev.data 0x00, Ev.data 0x33,
   Ev.data 0x33,
   Ev.cmd 0xB7, Ev.data 0x35,
   Ev.cmd 0xBB, Ev.data 0x35,
   Ev.cmd 0xC0, Ev.data 0x2C,
   Ev.cmd 0xC2, Ev.data 0x01,
   Ev.cmd 0xC3, Ev.data 0x13,
   Ev.cmd 0xC4, Ev.data 0x20,
   Ev.cmd 0xC6, Ev.data 0x0F,
   Ev.cmd 0xD0, Ev.data 0xA4, Ev.data 0xA1,
   Ev.cmd 0xD6, Ev.data 0xA1,
   Ev.cmd 0xE0, Ev.data 0xF0, Ev.data 0x00, Ev.data 0x04, Ev.data 0x04,
   Ev.data 0x04, Ev.data 0x05, Ev.data 0x29, Ev.data 0x33, Ev.data 0x3E,
   Ev.data 0x38, Ev.data 0x12, Ev.data 0x12, Ev.data 0x28, Ev.data 0x30,
   Ev.cmd 0xE1, Ev.data 0xF0, Ev.data 0x07, Ev.data 0x0A, Ev.data 0x0D,
   Ev.data 0x0B, Ev.data 0x07, Ev.data 0x28, Ev.data 0x33, Ev.data 0x3E,
   Ev.data 0x36, Ev.data 0x14, Ev.data 0x14, Ev.data 0x29, Ev.data 0x32,
   Ev.cmd 0x21,
   Ev.cmd 0x11, Ev.delayMs 120,
   Ev.cmd 0x29]

/-- Mutable state of the Arduino driver relevant to initialization. -/
structure ArduinoState where
  initialized : Bool
  deriving DecidableEq, Repr

/-- The full hardware trace of `ST7789Display::begin`
(Display_ST7789.cpp:233-253): pin configuration, backlight PWM setup, SPI
setup, hardware reset, register initialization. -/
def arduinoBeginTrace (cfg : ST7789Config) : List Ev :=
  [Ev.pinModeOut cfg.pin_cs, Ev.pinModeOut cfg.pin_dc,
   Ev.pinModeOut cfg.pin_rst] ++
  backlightInitTrace cfg ++ [Ev.spiBegin] ++
  hardwareResetTrace cfg ++ initRegistersTrace cfg

/-- `ST7789Display::begin` (Display_ST7789.cpp:233-253).  The method performs
the whole sequence unconditionally — it never tests `_initialized` — then
sets `_initialized = true` and returns `true`. -/
def arduinoBegin (cfg : ST7789Config) (_s : ArduinoState) :
    Bool × ArduinoState × List Ev :=
  (true, { initialized := true }, arduinoBeginTrace cfg)

/-!
ESP-IDF implementation (main/LCD_Driver/ST7789.{h,c}).

Hardware calls (`esp_lcd_*`, `ledc_*`) are external collaborators; each call
site is modelled by a step event, and each fallible call takes a `Bool`
telling whether the hardware call succeeds, so the driver's own control flow
(early returns, conditional stores) is kept exactly.
-/

/-- `esp_err_t` values the driver produces. -/
inductive EspErr where
  | ok
  | invalidArg
  | invalidState
  | fail
  deriving DecidableEq, Repr

/-- Brightness constants (ST7789.c:19-21). -/
def BRIGHTNESS_SCALE_FACTOR : Nat := 81

/-- `BRIGHTNESS_MAX` (ST7789.c:21). -/
def BRIGHTNESS_MAX : Nat := 100

/-- `ST7789_BL_MAX_DUTY = (1 << ST7789_BL_RESOLUTION) - 1` with the 13-bit
LEDC resolution (ST7789.h:63-65). -/
def ST7789_BL_MAX_DUTY : Nat := 2 ^ 13 - 1

/-- `st7789_backlight_t` (ST7789.h:76-83); the LEDC channel/mode/timer
fields are fixed constants and omitted.  `current_brightness` is `uint8_t`. -/
structure st7789_backlight_t where
  gpio_num : Nat
  current_brightness : Nat
  is_initialized : Bool
  deriving DecidableEq, Repr

/-- `st7789_config_t` (ST7789.h:90-111), the fields the modelled code reads. -/
structure st7789_config_t where
  pin_cs : Nat
  pin_dc : Nat
  pin_rst : Nat
  pixel_clock_hz : Nat
  h_res : Nat
  v_res : Nat
  offset_x : Nat
  offset_y : Nat
  pin_backlight : Nat
  initial_brightness : Nat
  deriving DecidableEq, Repr

/-- `st7789_device_t` (ST7789.h:118-124); the opaque panel/IO handles are
hardware resources outside the model. -/
structure st7789_device_t where
  backlight : st7789_backlight_t
  config : st7789_config_t
  is_initialized : Bool
  deriving DecidableEq, Repr

/-- Heap-level action of `st7789_create`. -/
inductive SysEv where
  | alloc
  deriving DecidableEq, Repr

/-- The device produced by a successful `st7789_create` (ST7789.c:78-89):
`calloc` zeroes the object, then the configuration is copied in and
`is_initialized` set to false.  The zeroed backlight sub-object has
brightness 0 and is not initialized. -/
def freshDevice (cfg : st7789_config_t) : st7789_device_t :=
  { backlight := { gpio_num := 0, current_brightness := 0,
                   is_initialized := false }
    config := cfg
    is_initialized := false }

/-- `st7789_create` (ST7789.c:70-90).  A null configuration is rejected
before any allocation; otherwise one `calloc` happens, whose failure
(`allocOk = false`) returns null. -/
def st7789_create (config : Option st7789_config_t) (allocOk : Bool) :
    Option st7789_device_t × List SysEv :=
  match config with
  | none => (none, [])
  | some cfg =>
      if allocOk then (some (freshDevice cfg), [SysEv.alloc])
      else (none, [SysEv.alloc])

/-- `brightness_to_duty` (ST7789.c:494-509): 0 maps to duty 0; otherwise the
argument is clamped to 100 and mapped through the non-linear curve
`MAX_DUTY - SCALE_FACTOR * (100 - brightness)`, returned as `uint16_t`. -/
def brightness_to_duty (brightness : Nat) : Nat :=
  let b := brightness % 256
  if b = 0 then 0
  else
    let b := if b > BRIGHTNESS_MAX then BRIGHTNESS_MAX else b
    (ST7789_BL_MAX_DUTY - BRIGHTNESS_SCALE_FACTOR * (BRIGHTNESS_MAX - b))
      % 65536

/-- The backlight object produced by a successful `backlight_init`
(ST7789.c:429-435): brightness starts at 0, initialized flag set. -/
def backlightInitState (gpio : Nat) : st7789_backlight_t :=
  { gpio_num := gpio, current_brightness := 0, is_initialized := true }

/-- `backlight_set_duty` (ST7789.c:465-489).  Returns the error code, the
updated backlight object, and the duty value passed to `ledc_set_duty` (if
control reaches that call).  `okSet` / `okUpdate` are the results of
`ledc_set_duty` / `ledc_update_duty`; the clamped brightness is stored only
when both succeed. -/
def backlight_set_duty (bl : st7789_backlight_t) (brightness : Nat)
    (okSet okUpdate : Bool) : EspErr × st7789_backlight_t × Option Nat :=
  if bl.is_initialized = false then (EspErr.invalidState, bl, none)
  else
    let b := brightness % 256
    let b := if b > BRIGHTNESS_MAX then BRIGHTNESS_MAX else b
    let duty := brightness_to_duty b
    if okSet = false then (EspErr.fail, bl, some duty)
    else if okUpdate = false then (EspErr.fail, bl, some duty)
    else (EspErr.ok, { bl with current_brightness := b }, some duty)

/-- `st7789_backlight_set` (ST7789.c:285-296), on a non-null device. -/
def st7789_backlight_set (d : st7789_device_t) (brightness : Nat)
    (okSet okUpdate : Bool) : EspErr × st7789_device_t :=
  if d.is_initialized = false then (EspErr.invalidState, d)
  else if d.backlight.is_initialized = false then (EspErr.invalidState, d)
  else
    let r := backlight_set_duty d.backlight brightness okSet okUpdate
    (r.1, { d with backlight := r.2.1 })

/-- `st7789_backlight_get` (ST7789.c:301-308): 0 for a null device or an
uninitialized backlight, else the stored brightness. -/
def st7789_backlight_get (d : Option st7789_device_t) : Nat :=
  match d with
  | none => 0
  | some dev =>
      if dev.backlight.is_initialized = false then 0
      else dev.backlight.current_brightness

/-- `st7789_backlight_enable` (ST7789.c:313-328), on a non-null device.
Enabling restores the stored brightness through `backlight_set_duty`;
disabling writes duty 0 directly without touching the stored brightness. -/
def st7789_backlight_enable (d : st7789_device_t) (enable : Bool)
    (okSet okUpdate : Bool) : EspErr × st7789_device_t :=
  if d.is_initialized = false then (EspErr.invalidState, d)
  else if enable then
    let r := backlight_set_duty d.backlight d.backlight.current_brightness
      okSet okUpdate
    (r.1, { d with backlight := r.2.1 })
  else
    (if okUpdate then EspErr.ok else EspErr.fail, d)

/-- `st7789_backlight_fade` (ST7789.c:333-368), on a non-null device.
`okFadeSet` / `okFadeStart` are the results of `ledc_set_fade_with_time`
and `ledc_fade_start`; the clamped target is stored only when the fade
start succeeds. -/
def st7789_backlight_fade (d : st7789_device_t) (target_brightness : Nat)
    (okFadeSet okFadeStart : Bool) : EspErr × st7789_device_t :=
  if d.is_initialized = false then (EspErr.invalidState, d)
  else if d.backlight.is_initialized = false then (EspErr.invalidState, d)
  else
    let t := target_brightness % 256
    let t := if t > BRIGHTNESS_MAX then BRIGHTNESS_MAX else t
    let _duty := brightness_to_duty t
    if okFadeSet = false then (EspErr.fail, d)
    else if okFadeStart = false then (EspErr.fail, d)
    else (EspErr.ok,
      { d with backlight := { d.backlight with current_brightness := t } })

/-- The steps `st7789_init` performs on its success path. -/
inductive InitStep where
  | ioInstall
  | panelInstall
  | panelReset
  | panelInit
  | mirror
  | dispOn
  | blInit
  | blSetInitial
  deriving DecidableEq, Repr

/-- `st7789_init` (ST7789.c:95-194).  A null device is rejected; an already
initialized device returns `ESP_OK` at once performing no step (the guard at
ST7789.c:102-105).  Otherwise the sequence of hardware calls runs; `hwOk`
collapses the per-call results (any hardware failure returns its error
before `is_initialized` is set, which the coarse `hwOk = false` branch
represents).  On success the backlight is initialized and set to the
configured initial brightness, and `is_initialized` becomes true. -/
def st7789_init (d : Option st7789_device_t) (hwOk : Bool) :
    EspErr × Option st7789_device_t × List InitStep :=
  match d with
  | none => (EspErr.invalidArg, none, [])
  | some dev =>
      if dev.is_initialized then (EspErr.ok, some dev, [])
      else if hwOk = false then (EspErr.fail, some dev, [InitStep.ioInstall])
      else
        let dev1 : st7789_device_t :=
          { dev with backlight := backlightInitState dev.config.pin_backlight }
        let r := st7789_backlight_set dev1 dev1.config.initial_brightness
          true true
        (EspErr.ok, some { r.2 with is_initialized := true },
         [InitStep.ioInstall, InitStep.panelInstall, InitStep.panelReset,
          InitStep.panelInit, InitStep.mirror, InitStep.dispOn,
          InitStep.blInit, InitStep.blSetInitial])

/-- One call into the ESP-IDF backlight API, with the outcomes of its
underlying LEDC calls. -/
inductive BLOp where
  | set (b : Nat) (okSet okUpdate : Bool)
  | fade (b : Nat) (okFadeSet okFadeStart : Bool)
  | enable (e : Bool) (okSet okUpdate : Bool)
  deriving DecidableEq, Repr

/-- Apply one backlight API call to a device, keeping the updated device. -/
def applyBLOp (d : st7789_device_t) (op : BLOp) : st7789_device_t :=
  match op with
  | BLOp.set b okSet okUpdate => (st7789_backlight_set d b okSet okUpdate).2
  | BLOp.fade b okFS okSt => (st7789_backlight_fade d b okFS okSt).2
  | BLOp.enable e okSet okUpdate =>
      (st7789_backlight_enable d e okSet okUpdate).2

/-!
Claim theorems.
-/

/-- A horizontal configuration, valid for the native 240×320 range, whose
nonzero Y offset can carry into the high address byte. -/
def cfgCarryH : ST7789Config :=
  { pin_cs := 14, pin_dc := 15, pin_rst := 21, pin_backlight := 22
    width := 172, height := 319, offset_x := 34, offset_y := 1
    horizontal := true
    spi_freq := 80000000, backlight_freq := 1000, backlight_resolution := 10 }

/-- A vertical configuration, valid for the native range with the axes
swapped, whose nonzero X offset can carry into the high address byte. -/
def cfgCarryV : ST7789Config :=
  { pin_cs := 14, pin_dc := 15, pin_rst := 21, pin_backlight := 22
    width := 319, height := 172, offset_x := 1, offset_y := 34
    horizontal := false
    spi_freq := 80000000, backlight_freq := 1000, backlight_resolution := 10 }

/-- A vertical configuration matching the panel mounted the other way:
the 34-pixel offset moves to the Y axis. -/
def cfgVertical : ST7789Config :=
  { pin_cs := 14, pin_dc := 15, pin_rst := 21, pin_backlight := 22
    width := 320, height := 172, offset_x := 0, offset_y := 34
    horizontal := false
    spi_freq := 80000000, backlight_freq := 1000, backlight_resolution := 10 }

/-- C1, counterexample.  With the valid horizontal configuration
`cfgCarryH` (offset_x+width = 206 ≤ 240, offset_y+height = 320 ≤ 320) and
the in-bounds window (0,255)-(0,255) (255+1 = 256 < 320), the row-address
command does not carry 256 = y1+offset_y as a big-endian 16-bit value: the
high byte is computed from the un-offset y1 = 255, so the panel receives
the bytes (0,0), i.e. the value 0, instead of (1,0). -/
theorem c1_counterexample :
    (cfgCarryH.NativeValid ∧ cfgCarryH.horizontal = true ∧
      0 + cfgCarryH.offset_x < 240 ∧ 255 + cfgCarryH.offset_y < 320) ∧
    setWindowTrace cfgCarryH 0 255 0 255 =
      [Ev.cmd 0x2A, Ev.data 0, Ev.data 34, Ev.data 0, Ev.data 34,
       Ev.cmd 0x2B, Ev.data 0, Ev.data 0, Ev.data 0, Ev.data 0,
       Ev.cmd 0x2C] ∧
    setWindowTrace cfgCarryH 0 255 0 255 ≠
      [Ev.cmd 0x2A, Ev.data 0, Ev.data 34, Ev.data 0, Ev.data 34,
       Ev.cmd 0x2B, Ev.data 1, Ev.data 0, Ev.data 1, Ev.data 0,
       Ev.cmd 0x2C] := by decide

/-- C1 (amended): for a valid horizontal configuration and an in-bounds
window, `setWindow` issues the column-address command carrying
(x1+offset_x, x2+offset_x) and the row-address command carrying
(y1+offset_y, y2+offset_y) as big-endian 16-bit byte pairs, PROVIDED the
offset addition does not carry into the high byte on the Y axis (the code
takes the high byte from the un-offset coordinate; on the X axis the native
240-column bound makes a carry impossible). -/
theorem c1_setWindow_horizontal (cfg : ST7789Config) (x1 y1 x2 y2 : Nat)
    (hH : cfg.horizontal = true)
    (hval : cfg.NativeValid)
    (hx12 : x1 ≤ x2) (hy12 : y1 ≤ y2)
    (hxb : x2 + cfg.offset_x < 240)
    (hyb : y2 + cfg.offset_y < 320)
    (hnc1 : (y1 + cfg.offset_y) / 256 = y1 / 256)
    (hnc2 : (y2 + cfg.offset_y) / 256 = y2 / 256) :
    setWindowTrace cfg x1 y1 x2 y2 =
      [Ev.cmd 0x2A,
       Ev.data ((x1 + cfg.offset_x) / 256), Ev.data ((x1 + cfg.offset_x) % 256),
       Ev.data ((x2 + cfg.offset_x) / 256), Ev.data ((x2 + cfg.offset_x) % 256),
       Ev.cmd 0x2B,
       Ev.data ((y1 + cfg.offset_y) / 256), Ev.data ((y1 + cfg.offset_y) % 256),
       Ev.data ((y2 + cfg.offset_y) / 256), Ev.data ((y2 + cfg.offset_y) % 256),
       Ev.cmd 0x2C] := by
  simp only [setWindowTrace, setAddrTrace, hH, if_true, List.cons_append,
    List.nil_append, List.cons.injEq, Ev.cmd.injEq, Ev.data.injEq,
    and_true, true_and]
  omega

/-- C1 witness: the amended theorem evaluated on the board's own
configuration and the spec's end-to-end window. -/
theorem c1_witness :
    (arduinoDefaultConfig.horizontal = true ∧
      arduinoDefaultConfig.NativeValid ∧
      10 ≤ 50 ∧ 20 ≤ 60 ∧
      50 + arduinoDefaultConfig.offset_x < 240 ∧
      60 + arduinoDefaultConfig.offset_y < 320 ∧
      (20 + arduinoDefaultConfig.offset_y) / 256 = 20 / 256 ∧
      (60 + arduinoDefaultConfig.offset_y) / 256 = 60 / 256) ∧
    setWindowTrace arduinoDefaultConfig 10 20 50 60 =
      [Ev.cmd 0x2A,
       Ev.data ((10 + arduinoDefaultConfig.offset_x) / 256),
       Ev.data ((10 + arduinoDefaultConfig.offset_x) % 256),
       Ev.data ((50 + arduinoDefaultConfig.offset_x) / 256),
       Ev.data ((50 + arduinoDefaultConfig.offset_x) % 256),
       Ev.cmd 0x2B,
       Ev.data ((20 + arduinoDefaultConfig.offset_y) / 256),
       Ev.data ((20 + arduinoDefaultConfig.offset_y) % 256),
       Ev.data ((60 + arduinoDefaultConfig.offset_y) / 256),
       Ev.data ((60 + arduinoDefaultConfig.offset_y) % 256),
       Ev.cmd 0x2C] :=
  ⟨by decide,
   c1_setWindow_horizontal arduinoDefaultConfig 10 20 50 60 (by decide)
     (by decide) (by decide) (by decide) (by decide) (by decide)
     (by decide) (by decide)⟩

/-- C2, counterexample.  With the valid vertical configuration `cfgCarryV`
(offset_y+height = 206 ≤ 240, offset_x+width = 320 ≤ 320) and the in-bounds
window (255,0)-(255,0) (255+1 = 256 < 320), the row-address command does
not carry 256 = x1+offset_x as a big-endian 16-bit value: the high byte is
computed from the un-offset x1 = 255, so the panel receives the bytes
(0,0), i.e. the value 0, instead of (1,0). -/
theorem c2_counterexample :
    (cfgCarryV.NativeValid ∧ cfgCarryV.horizontal = false ∧
      255 + cfgCarryV.offset_x < 320 ∧ 0 + cfgCarryV.offset_y < 240) ∧
    setWindowTrace cfgCarryV 255 0 255 0 =
      [Ev.cmd 0x2A, Ev.data 0, Ev.data 34, Ev.data 0, Ev.data 34,
       Ev.cmd 0x2B, Ev.data 0, Ev.data 0, Ev.data 0, Ev.data 0,
       Ev.cmd 0x2C] ∧
    setWindowTrace cfgCarryV 255 0 255 0 ≠
      [Ev.cmd 0x2A, Ev.data 0, Ev.data 34, Ev.data 0, Ev.data 34,
       Ev.cmd 0x2B, Ev.data 1, Ev.data 0, Ev.data 1, Ev.data 0,
       Ev.cmd 0x2C] := by decide

/-- C2 (amended): for a valid vertical (axes-swapped) configuration and an
in-bounds window, `setWindow` issues the column-address command carrying
the Y range with the Y offset and the row-address command carrying the X
range with the X offset — each axis keeps its own offset through the swap
— as big-endian 16-bit byte pairs, PROVIDED the offset addition does not
carry into the high byte on the X axis (the code takes the high byte from
the un-offset coordinate; on the Y axis the native 240-column bound makes
a carry impossible). -/
theorem c2_setWindow_vertical (cfg : ST7789Config) (x1 y1 x2 y2 : Nat)
    (hH : cfg.horizontal = false)
    (hval : cfg.NativeValid)
    (hx12 : x1 ≤ x2) (hy12 : y1 ≤ y2)
    (hxb : x2 + cfg.offset_x < 320)
    (hyb : y2 + cfg.offset_y < 240)
    (hnc1 : (x1 + cfg.offset_x) / 256 = x1 / 256)
    (hnc2 : (x2 + cfg.offset_x) / 256 = x2 / 256) :
    setWindowTrace cfg x1 y1 x2 y2 =
      [Ev.cmd 0x2A,
       Ev.data ((y1 + cfg.offset_y) / 256), Ev.data ((y1 + cfg.offset_y) % 256),
       Ev.data ((y2 + cfg.offset_y) / 256), Ev.data ((y2 + cfg.offset_y) % 256),
       Ev.cmd 0x2B,
       Ev.data ((x1 + cfg.offset_x) / 256), Ev.data ((x1 + cfg.offset_x) % 256),
       Ev.data ((x2 + cfg.offset_x) / 256), Ev.data ((x2 + cfg.offset_x) % 256),
       Ev.cmd 0x2C] := by
  simp only [setWindowTrace, setAddrTrace, hH, if_false, Bool.false_eq_true,
    List.cons_append, List.nil_append, List.cons.injEq, Ev.cmd.injEq,
    Ev.data.injEq, and_true, true_and]
  omega

/-- C2 witness: the amended theorem evaluated on the vertical mounting of
the board's panel with the spec's end-to-end window. -/
theorem c2_witness :
    (cfgVertical.horizontal = false ∧
      cfgVertical.NativeValid ∧
      10 ≤ 50 ∧ 20 ≤ 60 ∧
      50 + cfgVertical.offset_x < 320 ∧
      60 + cfgVertical.offset_y < 240 ∧
      (10 + cfgVertical.offset_x) / 256 = 10 / 256 ∧
      (50 + cfgVertical.offset_x) / 256 = 50 / 256) ∧
    setWindowTrace cfgVertical 10 20 50 60 =
      [Ev.cmd 0x2A,
       Ev.data ((20 + cfgVertical.offset_y) / 256),
       Ev.data ((20 + cfgVertical.offset_y) % 256),
       Ev.data ((60 + cfgVertical.offset_y) / 256),
       Ev.data ((60 + cfgVertical.offset_y) % 256),
       Ev.cmd 0x2B,
       Ev.data ((10 + cfgVertical.offset_x) / 256),
       Ev.data ((10 + cfgVertical.offset_x) % 256),
       Ev.data ((50 + cfgVertical.offset_x) / 256),
       Ev.data ((50 + cfgVertical.offset_x) % 256),
       Ev.cmd 0x2C] :=
  ⟨by decide,
   c2_setWindow_vertical cfgVertical 10 20 50 60 (by decide)
     (by decide) (by decide) (by decide) (by decide) (by decide)
     (by decide) (by decide)⟩

/-- C4: with the board configuration (width 172, height 320, offset 34/0,
horizontal), `setWindow(10,20,50,60)` emits column-address parameters 44
and 84 (as the 16-bit pairs (0,44) and (0,84)) and row-address parameters
20 and 60 (as (0,20) and (0,60)), followed by the memory-write command. -/
theorem c4_setWindow_scenario :
    setWindowTrace arduinoDefaultConfig 10 20 50 60 =
      [Ev.cmd 0x2A, Ev.data 0, Ev.data 44, Ev.data 0, Ev.data 84,
       Ev.cmd 0x2B, Ev.data 0, Ev.data 20, Ev.data 0, Ev.data 60,
       Ev.cmd 0x2C] := by decide

/-- Serializing pixels to bytes doubles the length. -/
theorem pixelsToBytes_length (ps : List Nat) :
    (pixelsToBytes ps).length = 2 * ps.length := by
  induction ps with
  | nil => rfl
  | cons p ps ih => simp [pixelsToBytes, ih]; omega

/-- C3: for a window with x1≤x2, y1≤y2 (within the 16-bit coordinate range,
with the byte count representable) and a buffer of exactly
(x2-x1+1)*(y2-y1+1) pixels, `drawPixelBuffer` issues exactly one
`setWindow` for that window followed by exactly one bulk write of
`buffer.length * 2` bytes, and the memory-write command 0x2C sits between
the addressing commands and the data burst. -/
theorem c3_drawPixelBuffer (cfg : ST7789Config) (x1 y1 x2 y2 : Nat)
    (buffer : List Nat)
    (hx12 : x1 ≤ x2) (hy12 : y1 ≤ y2)
    (hx : x2 < 65536) (hy : y2 < 65536)
    (hxw : x2 - x1 + 1 ≤ 65535) (hyh : y2 - y1 + 1 ≤ 65535)
    (hsmall : (x2 - x1 + 1) * (y2 - y1 + 1) * 2 < 4294967296)
    (hbuf : buffer.length = (x2 - x1 + 1) * (y2 - y1 + 1)) :
    drawPixelBufferTrace cfg x1 y1 x2 y2 buffer =
      setWindowTrace cfg x1 y1 x2 y2 ++
        [Ev.dataBytes (pixelsToBytes buffer)] ∧
    (pixelsToBytes buffer).length = buffer.length * 2 ∧
    setWindowTrace cfg x1 y1 x2 y2 =
      setAddrTrace cfg x1 y1 x2 y2 ++ [Ev.cmd 0x2C] := by
  refine ⟨?_, by rw [pixelsToBytes_length]; ring, rfl⟩
  simp only [drawPixelBufferTrace]
  have hw : (x2 % 65536 - x1 % 65536 + 1) % 65536 = x2 - x1 + 1 := by omega
  have hh : (y2 % 65536 - y1 % 65536 + 1) % 65536 = y2 - y1 + 1 := by omega
  rw [hw, hh, Nat.mod_eq_of_lt hsmall]
  have hlen : (pixelsToBytes buffer).length
      = (x2 - x1 + 1) * (y2 - y1 + 1) * 2 := by
    rw [pixelsToBytes_length, hbuf]; ring
  rw [List.take_of_length_le (le_of_eq hlen)]

/-- C3 witness: a 2×2 window and a matching 4-pixel buffer on the board
configuration. -/
theorem c3_witness :
    ((0 : Nat) ≤ 1 ∧ (0 : Nat) ≤ 1 ∧ (1 : Nat) < 65536 ∧ (1 : Nat) < 65536 ∧
      1 - 0 + 1 ≤ 65535 ∧ 1 - 0 + 1 ≤ 65535 ∧
      (1 - 0 + 1) * (1 - 0 + 1) * 2 < 4294967296 ∧
      ([10, 20, 30, 40] : List Nat).length = (1 - 0 + 1) * (1 - 0 + 1)) ∧
    (drawPixelBufferTrace arduinoDefaultConfig 0 0 1 1 [10, 20, 30, 40] =
      setWindowTrace arduinoDefaultConfig 0 0 1 1 ++
        [Ev.dataBytes (pixelsToBytes [10, 20, 30, 40])] ∧
    (pixelsToBytes [10, 20, 30, 40]).length =
      ([10, 20, 30, 40] : List Nat).length * 2 ∧
    setWindowTrace arduinoDefaultConfig 0 0 1 1 =
      setAddrTrace arduinoDefaultConfig 0 0 1 1 ++ [Ev.cmd 0x2C]) :=
  ⟨by decide,
   c3_drawPixelBuffer arduinoDefaultConfig 0 0 1 1 [10, 20, 30, 40]
     (by decide) (by decide) (by decide) (by decide) (by decide)
     (by decide) (by decide) (by decide)⟩

/-- C8: `clearScreen(c)` issues a full-panel
`setWindow(0,0,width-1,height-1)` followed by exactly `height` bulk
writes, each being the `width*2`-byte serialization of the 16-bit value
`c` repeated `width` times. -/
theorem c8_clearScreen (cfg : ST7789Config) (color : Nat)
    (hw1 : 1 ≤ cfg.width) (hw2 : cfg.width < 65536)
    (hh1 : 1 ≤ cfg.height) (hh2 : cfg.height < 65536)
    (hc : color < 65536) :
    clearScreenTrace cfg color =
      setWindowTrace cfg 0 0 (cfg.width - 1) (cfg.height - 1) ++
        List.replicate cfg.height
          (Ev.dataBytes (pixelsToBytes (List.replicate cfg.width color))) ∧
    (pixelsToBytes (List.replicate cfg.width color)).length =
      cfg.width * 2 := by
  have hlen : (pixelsToBytes (List.replicate cfg.width color)).length
      = cfg.width * 2 := by
    rw [pixelsToBytes_length, List.length_replicate]; ring
  refine ⟨?_, hlen⟩
  simp only [clearScreenTrace]
  have hwm : (cfg.width + 65536 - 1) % 65536 = cfg.width - 1 := by omega
  have hhm : (cfg.height + 65536 - 1) % 65536 = cfg.height - 1 := by omega
  have hcm : color % 65536 = color := Nat.mod_eq_of_lt hc
  have hbm : cfg.width * 2 % 4294967296 = cfg.width * 2 :=
    Nat.mod_eq_of_lt (by omega)
  rw [hwm, hhm, hcm, hbm, List.take_of_length_le (le_of_eq hlen)]

/-- C8 witness: clearing the board's panel with an arbitrary RGB565 color. -/
theorem c8_witness :
    ((1 : Nat) ≤ arduinoDefaultConfig.width ∧
      arduinoDefaultConfig.width < 65536 ∧
      (1 : Nat) ≤ arduinoDefaultConfig.height ∧
      arduinoDefaultConfig.height < 65536 ∧ (63488 : Nat) < 65536) ∧
    (clearScreenTrace arduinoDefaultConfig 63488 =
      setWindowTrace arduinoDefaultConfig 0 0 (arduinoDefaultConfig.width - 1)
          (arduinoDefaultConfig.height - 1) ++
        List.replicate arduinoDefaultConfig.height
          (Ev.dataBytes (pixelsToBytes
            (List.replicate arduinoDefaultConfig.width 63488))) ∧
    (pixelsToBytes (List.replicate arduinoDefaultConfig.width 63488)).length =
      arduinoDefaultConfig.width * 2) :=
  ⟨by decide,
   c8_clearScreen arduinoDefaultConfig 63488 (by decide) (by decide)
     (by decide) (by decide) (by decide)⟩

/-- `st7789_get_default_config` (ST7789.c:39-65), restricted to the modelled
fields. -/
def st7789_get_default_config : st7789_config_t :=
  { pin_cs := 14, pin_dc := 15, pin_rst := 21, pixel_clock_hz := 12000000
    h_res := 172, v_res := 320, offset_x := 34, offset_y := 0
    pin_backlight := 22, initial_brightness := 75 }

/-- The device state after one successful `st7789_init` on a freshly created
device with the default configuration.  The backlight brightness is still 0:
the source calls `st7789_backlight_set` for the configured initial
brightness before `is_initialized` is set, so that call is rejected by its
own guard (the source only logs a warning) and no brightness is stored. -/
def espInitializedDevice : st7789_device_t :=
  { backlight := { gpio_num := 22, current_brightness := 0,
                   is_initialized := true }
    config := st7789_get_default_config
    is_initialized := true }

/-- `espInitializedDevice` really is the outcome of the first successful
initialization of a freshly created device. -/
theorem espInitializedDevice_reachable :
    st7789_init (some (freshDevice st7789_get_default_config)) true =
      (EspErr.ok, some espInitializedDevice,
       [InitStep.ioInstall, InitStep.panelInstall, InitStep.panelReset,
        InitStep.panelInit, InitStep.mirror, InitStep.dispOn,
        InitStep.blInit, InitStep.blSetInitial]) := by decide

/-- C5, counterexample.  The Arduino `begin()` has no re-init guard: called
a second time on an already-initialized driver, it replays the complete
hardware trace — in particular the reset pulse on the RST pin and the
register-initialization sequence starting with the sleep-out command 0x11
— instead of being a no-op. -/
theorem c5_counterexample :
    (arduinoBegin arduinoDefaultConfig
        (arduinoBegin arduinoDefaultConfig { initialized := false }).2.1).2.2
      = arduinoBeginTrace arduinoDefaultConfig ∧
    Ev.gpioWrite arduinoDefaultConfig.pin_rst false
      ∈ arduinoBeginTrace arduinoDefaultConfig ∧
    Ev.cmd 0x11 ∈ arduinoBeginTrace arduinoDefaultConfig ∧
    arduinoBeginTrace arduinoDefaultConfig ≠ [] := by decide

/-- C5 (amended): only the ESP-IDF implementation has the idempotent
re-init guard — `st7789_init` on an already-initialized device returns
`ESP_OK` at once and performs no hardware step; the Arduino `begin()`
unconditionally re-runs the full reset and register sequence on every
call (returning `true`). -/
theorem c5_init_guard (dev : st7789_device_t) (hwOk : Bool)
    (cfg : ST7789Config) (s : ArduinoState)
    (h : dev.is_initialized = true) :
    st7789_init (some dev) hwOk = (EspErr.ok, some dev, []) ∧
    (arduinoBegin cfg s).2.2 = arduinoBeginTrace cfg ∧
    (arduinoBegin cfg s).1 = true := by
  refine ⟨?_, rfl, rfl⟩
  simp [st7789_init, h]

/-- C5 witness: the guard evaluated on the concrete initialized device. -/
theorem c5_witness :
    espInitializedDevice.is_initialized = true ∧
    (st7789_init (some espInitializedDevice) true =
        (EspErr.ok, some espInitializedDevice, []) ∧
      (arduinoBegin arduinoDefaultConfig { initialized := true }).2.2 =
        arduinoBeginTrace arduinoDefaultConfig ∧
      (arduinoBegin arduinoDefaultConfig { initialized := true }).1 = true) :=
  ⟨by decide,
   c5_init_guard espInitializedDevice true arduinoDefaultConfig
     { initialized := true } (by decide)⟩

/-- C6, counterexample.  With the Arduino driver's configured 10-bit PWM
resolution, the maximum representable duty is 2^10 - 1 = 1023, but
`setBacklight(100)` writes duty 100 * 10 = 1000. -/
theorem c6_counterexample :
    arduinoBacklightDuty 100 = 1000 ∧
    arduinoDefaultConfig.backlight_resolution = 10 ∧
    arduinoBacklightDuty 100 ≠
      2 ^ arduinoDefaultConfig.backlight_resolution - 1 := by decide

/-- C6 (amended): `setBacklight(0)` produces duty 0 in both
implementations; `setBacklight(100)` produces the maximum representable
13-bit duty 8191 in the ESP-IDF implementation, while the Arduino
implementation writes duty 1000 (`brightness * 10`) on its 10-bit
channel, not that channel's maximum 1023. -/
theorem c6_backlight_endpoints :
    arduinoBacklightDuty 0 = 0 ∧
    arduinoBacklightDuty 100 = 1000 ∧
    brightness_to_duty 0 = 0 ∧
    brightness_to_duty 100 = ST7789_BL_MAX_DUTY ∧
    ST7789_BL_MAX_DUTY = 2 ^ 13 - 1 := by decide

/-- C7: for any brightness 100 < b (within the `uint8_t` argument range),
`setBacklight(b)` behaves identically to `setBacklight(100)` in both
implementations: the Arduino driver computes the same duty and emits the
same PWM write, and the ESP-IDF `backlight_set_duty` (also through
`st7789_backlight_set`) returns the same result, writes the same duty and
stores the same brightness. -/
theorem c7_clamp_idempotent (b : Nat) (hb : 100 < b) (hb2 : b < 256)
    (cfg : ST7789Config) (bl : st7789_backlight_t) (d : st7789_device_t)
    (okSet okUpdate : Bool) :
    arduinoBacklightDuty b = arduinoBacklightDuty 100 ∧
    setBacklightTrace cfg b = setBacklightTrace cfg 100 ∧
    backlight_set_duty bl b okSet okUpdate =
      backlight_set_duty bl 100 okSet okUpdate ∧
    st7789_backlight_set d b okSet okUpdate =
      st7789_backlight_set d 100 okSet okUpdate := by
  have hmod : b % 256 = b := Nat.mod_eq_of_lt hb2
  have harduino : arduinoBacklightDuty b = arduinoBacklightDuty 100 := by
    simp [arduinoBacklightDuty, hmod, hb]
  have hduty : backlight_set_duty bl b okSet okUpdate =
      backlight_set_duty bl 100 okSet okUpdate := by
    unfold backlight_set_duty
    simp [hmod, hb, BRIGHTNESS_MAX]
  have hdev : ∀ dv : st7789_device_t,
      st7789_backlight_set dv b okSet okUpdate =
        st7789_backlight_set dv 100 okSet okUpdate := by
    intro dv
    unfold st7789_backlight_set
    have : backlight_set_duty dv.backlight b okSet okUpdate =
        backlight_set_duty dv.backlight 100 okSet okUpdate := by
      unfold backlight_set_duty
      simp [hmod, hb, BRIGHTNESS_MAX]
    rw [this]
  exact ⟨harduino, by simp [setBacklightTrace, harduino], hduty, hdev d⟩

/-- C7 witness: b = 150 on the concrete initialized device. -/
theorem c7_witness :
    ((100 : Nat) < 150 ∧ (150 : Nat) < 256) ∧
    (arduinoBacklightDuty 150 = arduinoBacklightDuty 100 ∧
      setBacklightTrace arduinoDefaultConfig 150 =
        setBacklightTrace arduinoDefaultConfig 100 ∧
      backlight_set_duty (backlightInitState 22) 150 true true =
        backlight_set_duty (backlightInitState 22) 100 true true ∧
      st7789_backlight_set espInitializedDevice 150 true true =
        st7789_backlight_set espInitializedDevice 100 true true) :=
  ⟨by decide,
   c7_clamp_idempotent 150 (by decide) (by decide) arduinoDefaultConfig
     (backlightInitState 22) espInitializedDevice true true⟩

/-- C9: `st7789_create(NULL)` is rejected before anything happens — it
returns null having performed no allocation, whatever the allocator would
have done. -/
theorem c9_create_null (allocOk : Bool) :
    st7789_create none allocOk = (none, []) := rfl

/-- `backlight_set_duty` never stores a brightness above 100: it either
leaves the stored brightness unchanged or stores the clamped value. -/
theorem backlight_set_duty_brightness_le (bl : st7789_backlight_t)
    (b : Nat) (okSet okUpdate : Bool)
    (h : bl.current_brightness ≤ 100) :
    (backlight_set_duty bl b okSet okUpdate).2.1.current_brightness ≤ 100 := by
  unfold backlight_set_duty
  split
  · exact h
  · dsimp only
    split
    · exact h
    · split
      · exact h
      · dsimp only [BRIGHTNESS_MAX]
        split <;> omega

/-- Every backlight API call preserves the stored-brightness bound. -/
theorem applyBLOp_brightness_le (d : st7789_device_t) (op : BLOp)
    (h : d.backlight.current_brightness ≤ 100) :
    (applyBLOp d op).backlight.current_brightness ≤ 100 := by
  cases op with
  | set b okS okU =>
      simp only [applyBLOp]
      unfold st7789_backlight_set
      split
      · exact h
      · split
        · exact h
        · exact backlight_set_duty_brightness_le d.backlight b okS okU h
  | fade b okFS okSt =>
      simp only [applyBLOp]
      unfold st7789_backlight_fade
      split
      · exact h
      · split
        · exact h
        · dsimp only
          split
          · exact h
          · split
            · exact h
            · dsimp only [BRIGHTNESS_MAX]
              split <;> omega
  | enable e okS okU =>
      simp only [applyBLOp]
      unfold st7789_backlight_enable
      split
      · exact h
      · split
        · exact backlight_set_duty_brightness_le d.backlight
            d.backlight.current_brightness okS okU h
        · exact h

/-- The bound is preserved along any sequence of backlight API calls. -/
theorem foldl_applyBLOp_brightness_le (ops : List BLOp)
    (d : st7789_device_t) (h : d.backlight.current_brightness ≤ 100) :
    (List.foldl applyBLOp d ops).backlight.current_brightness ≤ 100 := by
  induction ops generalizing d with
  | nil => exact h
  | cons op ops ih => exact ih _ (applyBLOp_brightness_le d op h)

/-- C10: the stored backlight brightness of the ESP-IDF driver is always
in [0,100].  It starts at 0 after `backlight_init`; starting from any
device satisfying the bound, every sequence of `st7789_backlight_set`,
`st7789_backlight_fade` and `st7789_backlight_enable` calls (with any
LEDC outcomes) keeps it there; and `st7789_backlight_get` returns a value
in [0,100], returning 0 for a null device and for a freshly created
(uninitialized) device. -/
theorem c10_brightness_invariant (cfg : st7789_config_t)
    (d : st7789_device_t) (ops : List BLOp)
    (h : d.backlight.current_brightness ≤ 100) :
    (backlightInitState cfg.pin_backlight).current_brightness = 0 ∧
    (List.foldl applyBLOp d ops).backlight.current_brightness ≤ 100 ∧
    st7789_backlight_get (some (List.foldl applyBLOp d ops)) ≤ 100 ∧
    st7789_backlight_get none = 0 ∧
    st7789_backlight_get (some (freshDevice cfg)) = 0 := by
  have hfold := foldl_applyBLOp_brightness_le ops d h
  refine ⟨rfl, hfold, ?_, rfl, rfl⟩
  show (if (List.foldl applyBLOp d ops).backlight.is_initialized = false
        then 0
        else (List.foldl applyBLOp d ops).backlight.current_brightness) ≤ 100
  split
  · omega
  · exact hfold

/-- C10 witness: the invariant evaluated on the concrete initialized
device under a short sequence of clamping operations, including an
out-of-range set request. -/
theorem c10_witness :
    espInitializedDevice.backlight.current_brightness ≤ 100 ∧
    ((backlightInitState
        st7789_get_default_config.pin_backlight).current_brightness = 0 ∧
      (List.foldl applyBLOp espInitializedDevice
        [BLOp.set 255 true true, BLOp.fade 180 true true,
         BLOp.enable false true true]).backlight.current_brightness ≤ 100 ∧
      st7789_backlight_get (some (List.foldl applyBLOp espInitializedDevice
        [BLOp.set 255 true true, BLOp.fade 180 true true,
         BLOp.enable false true true])) ≤ 100 ∧
      st7789_backlight_get none = 0 ∧
      st7789_backlight_get
        (some (freshDevice st7789_get_default_config)) = 0) :=
  ⟨by decide,
   c10_brightness_invariant st7789_get_default_config espInitializedDevice
     [BLOp.set 255 true true, BLOp.fade 180 true true,
      BLOp.enable false true true] (by decide)⟩

/-- C9 witness: the null-configuration rejection at a concrete allocator
outcome. -/
theorem c9_witness : st7789_create none true = (none, []) :=
  c9_create_null true
